import Mathlib

/-!
Verification of the peak-fit engine of `spineplot` (file `spineplot/spectra.py`).

The numerical code is embedded shallowly over the real numbers:

* the vectorized numpy model functions become pointwise real functions;
* a numpy computation that produces an all-NaN array (the invalid-parameter
  guard of `crystal_ball`) is modelled by `Option ℝ` with `none` standing for
  the undefined result;
* a numpy operation that raises (incompatible array shapes in `np.average`
  or in a broadcasted product, `ZeroDivisionError` on zero total weight) is
  modelled by `Option`-valued preprocessing, and `fit_with_function` returns
  an `Except` value whose `error` constructor stands for a raised exception;
* the external least-squares solver (`scipy.optimize.curve_fit`) is an
  explicit parameter of `fit_with_function`: the repository hands it the
  bin centers, the counts and the initial guess and propagates whatever it
  raises, which is exactly how the embedding treats it.
-/

namespace Spineplot

/-- `np.diff` on a one-dimensional array: adjacent differences.
Embeds the use `np.diff(bin_edges)` in `fit_with_function`. -/
noncomputable def npDiff (xs : List ℝ) : List ℝ :=
  List.zipWith (fun a b => b - a) xs xs.tail

/-- `np.average(a, weights=w)` on one-dimensional arrays.  numpy raises when
the two lengths differ and raises `ZeroDivisionError` when the weights sum to
zero; both exceptional outcomes are `none` here.  Otherwise the result is
`(Σ aᵢ wᵢ) / (Σ wᵢ)`. -/
noncomputable def npAverage (a w : List ℝ) : Option ℝ :=
  if a.length = w.length then
    if w.sum = 0 then none
    else some ((List.zipWith (fun x y => x * y) a w).sum / w.sum)
  else none

/-- Elementwise product of two one-dimensional numpy arrays with numpy's
broadcasting rule: the shapes must be equal or one of them must be length 1,
otherwise numpy raises (modelled by `none`).  Embeds
`data * np.diff(bin_edges)` in `fit_with_function`. -/
noncomputable def broadcastMul (a b : List ℝ) : Option (List ℝ) :=
  if a.length = b.length then some (List.zipWith (fun x y => x * y) a b)
  else if b.length = 1 then some (a.map (fun x => x * b.headI))
  else if a.length = 1 then some (b.map (fun y => a.headI * y))
  else none

/-- The Crystal Ball probability density function, from
`SpineSpectra.crystal_ball` in `spectra.py`.  The guard on invalid parameters
returns `np.full_like(x, np.nan)` in the source, modelled as `none`.  On the
real-valued branches the source's `np.nan_to_num` is the identity, and the
`np.where(tail_argument > 0, ..., 0)` mask is the inner conditional, so only
positive bases are ever raised to the real power `-n`. -/
noncomputable def crystal_ball (x alpha n mean sigma N : ℝ) : Option ℝ :=
  let z := (x - mean) / sigma
  let abs_alpha := |alpha|
  if abs_alpha = 0 ∨ n ≤ 0 ∨ sigma ≤ 0 then none
  else
    let A := (n / abs_alpha) ^ n * Real.exp (-abs_alpha ^ 2 / 2)
    let B := n / abs_alpha - abs_alpha
    let gaussian_core := Real.exp (-z ^ 2 / 2)
    let tail_argument := B - z
    let tail := if tail_argument > 0 then A * tail_argument ^ (-n) else 0
    let result := if z > -abs_alpha then gaussian_core else tail
    some (N * result)

/-- Crystal Ball plus a linear background, from
`SpineSpectra.crystal_ball_mxb`: the source returns
`crystal_ball(x, ...) + m*x + b`, and adding to an all-NaN array keeps it
all-NaN, so `none` propagates. -/
noncomputable def crystal_ball_mxb (x alpha n mean sigma N m b : ℝ) : Option ℝ :=
  match crystal_ball x alpha n mean sigma N with
  | none => none
  | some v => some (v + m * x + b)

/-- The Gaussian density from `SpineSpectra.gaussian`.  The source also binds
an unused `prefactor` variable; the returned expression is
`exp(exponent) * N / (sigma * sqrt(2 pi))`. -/
noncomputable def gaussian (x mean sigma N : ℝ) : ℝ :=
  let prefactor := N / (sigma * Real.sqrt (2 * Real.pi))
  let exponent := -0.5 * ((x - mean) / sigma) ^ 2
  Real.exp exponent * N / (sigma * Real.sqrt (2 * Real.pi))

/-- One `name = value ± error` line of the legend label built by
`fit_with_function`; in the source every such line is rendered with the
`:.2f` (two decimal places) format. -/
structure LabelEntry where
  name : String
  value : ℝ
  err : ℝ

/-- What `curve_fit` returns on success: the fitted parameter array `popt`
and the covariance matrix `pcov`. -/
structure SolverOutput where
  popt : Nat → ℝ
  pcov : Nat → Nat → ℝ

/-- An exception escaping `fit_with_function`: either a numpy error raised
while computing the initial guess, or a solver (non-convergence) error
raised by `curve_fit`. -/
inductive FitError where
  | numpyError
  | solverFailure

/-- The external nonlinear least-squares solver (`scipy.optimize.curve_fit`),
abstracted: it receives the bin centers, the data and the initial guess `p0`
and either raises or returns `(popt, pcov)`. -/
def Solver : Type :=
  List ℝ → List ℝ → List ℝ → Except FitError SolverOutput

/-- The observable outcome of a successful fit branch: the fitted parameters
with their covariance matrix (used to draw the overlay curve) and the legend
label entries. -/
structure FitResult where
  popt : Nat → ℝ
  pcov : Nat → Nat → ℝ
  label : List LabelEntry

/-- The legend label of the `crystal_ball` branch, line by line from the
source: mu and sigma are `popt[2]`, `popt[3]`, then alpha and n are
`popt[0]`, `popt[1]`, each with `sqrt(pcov[i,i])`. -/
noncomputable def cb_label (popt : Nat → ℝ) (pcov : Nat → Nat → ℝ) : List LabelEntry :=
  [⟨"mu", popt 2, Real.sqrt (pcov 2 2)⟩,
   ⟨"sigma", popt 3, Real.sqrt (pcov 3 3)⟩,
   ⟨"alpha", popt 0, Real.sqrt (pcov 0 0)⟩,
   ⟨"n", popt 1, Real.sqrt (pcov 1 1)⟩]

/-- The legend label of the `crystal_ball_mxb` branch: the Crystal Ball lines
followed by the background slope `popt[5]` and intercept `popt[6]`. -/
noncomputable def mxb_label (popt : Nat → ℝ) (pcov : Nat → Nat → ℝ) : List LabelEntry :=
  [⟨"mu", popt 2, Real.sqrt (pcov 2 2)⟩,
   ⟨"sigma", popt 3, Real.sqrt (pcov 3 3)⟩,
   ⟨"alpha", popt 0, Real.sqrt (pcov 0 0)⟩,
   ⟨"n", popt 1, Real.sqrt (pcov 1 1)⟩,
   ⟨"m", popt 5, Real.sqrt (pcov 5 5)⟩,
   ⟨"b", popt 6, Real.sqrt (pcov 6 6)⟩]

/-- The legend label of the `gaussian` branch: mu is `popt[0]`, sigma is
`popt[1]`. -/
noncomputable def gaussian_label (popt : Nat → ℝ) (pcov : Nat → Nat → ℝ) : List LabelEntry :=
  [⟨"mu", popt 0, Real.sqrt (pcov 0 0)⟩,
   ⟨"sigma", popt 1, Real.sqrt (pcov 1 1)⟩]

/-- Initial-guess computation of the `crystal_ball` branch of
`fit_with_function`: weighted mean and weighted spread of the centers,
`data * np.diff(bin_edges)` summed for the normalization, and the fixed
seeds `alpha = 1.5`, `n = 5`.  Any numpy exception on the way is `none`. -/
noncomputable def cb_prepare (bin_centers data bin_edges : List ℝ) : Option (List ℝ) :=
  (npAverage bin_centers data).bind fun cb_mean =>
  (npAverage (bin_centers.map fun c => (c - cb_mean) ^ 2) data).bind fun cb_var =>
  (broadcastMul data (npDiff bin_edges)).bind fun cb_norm =>
  some [1.5, 5, cb_mean, Real.sqrt cb_var, cb_norm.sum]

/-- Initial-guess computation of the `crystal_ball_mxb` branch: the Crystal
Ball guess extended with slope `m = 0` and intercept
`b = np.sum(data) / len(data)`. -/
noncomputable def mxb_prepare (bin_centers data bin_edges : List ℝ) : Option (List ℝ) :=
  (npAverage bin_centers data).bind fun cb_mean =>
  (npAverage (bin_centers.map fun c => (c - cb_mean) ^ 2) data).bind fun cb_var =>
  (broadcastMul data (npDiff bin_edges)).bind fun cb_norm =>
  some [1.5, 5, cb_mean, Real.sqrt cb_var, cb_norm.sum, 0, data.sum / data.length]

/-- Initial-guess computation of the `gaussian` branch: mean, spread and
normalization only. -/
noncomputable def gaussian_prepare (bin_centers data bin_edges : List ℝ) : Option (List ℝ) :=
  (npAverage bin_centers data).bind fun g_mean =>
  (npAverage (bin_centers.map fun c => (c - g_mean) ^ 2) data).bind fun g_var =>
  (broadcastMul data (npDiff bin_edges)).bind fun g_norm =>
  some [g_mean, Real.sqrt g_var, g_norm.sum]

/-- `SpineSpectra.fit_with_function`, stripped of the matplotlib surface: the
`fit_type` string (`Option String` because Python also admits `None`) selects
a branch; each branch computes its initial guess, hands it to `curve_fit`
(the `solver` argument) and, on success, builds the label and plots the
overlay using `popt` — captured here as the returned `FitResult`.  An
unrecognized `fit_type` falls through every `elif` and the method returns
`None` having done nothing, captured as `.ok none`. -/
noncomputable def fit_with_function (solver : Solver)
    (bin_centers data bin_edges : List ℝ) (fit_type : Option String) :
    Except FitError (Option FitResult) :=
  if fit_type = some "crystal_ball" then
    match cb_prepare bin_centers data bin_edges with
    | none => .error .numpyError
    | some initial_guess =>
      match solver bin_centers data initial_guess with
      | .error e => .error e
      | .ok out => .ok (some ⟨out.popt, out.pcov, cb_label out.popt out.pcov⟩)
  else if fit_type = some "crystal_ball_mxb" then
    match mxb_prepare bin_centers data bin_edges with
    | none => .error .numpyError
    | some initial_guess =>
      match solver bin_centers data initial_guess with
      | .error e => .error e
      | .ok out => .ok (some ⟨out.popt, out.pcov, mxb_label out.popt out.pcov⟩)
  else if fit_type = some "gaussian" then
    match gaussian_prepare bin_centers data bin_edges with
    | none => .error .numpyError
    | some initial_guess =>
      match solver bin_centers data initial_guess with
      | .error e => .error e
      | .ok out => .ok (some ⟨out.popt, out.pcov, gaussian_label out.popt out.pcov⟩)
  else .ok none

/-- `true` exactly when the invocation escaped with an exception instead of
completing. -/
def fitFailed : Except FitError (Option FitResult) → Bool
  | .error _ => true
  | .ok _ => false

/-- The spec's formula for the weighted mean in claim C5, written with
explicit indices: `(Σ_i centers[i]*counts[i]) / (Σ_i counts[i])`. -/
noncomputable def spec_weighted_mean (xs ws : List ℝ) : ℝ :=
  (∑ i ∈ Finset.range xs.length, xs.getD i 0 * ws.getD i 0) / ws.sum

/-- The spec's formula for the weighted variance of the centers about the
weighted mean, written with explicit indices. -/
noncomputable def spec_weighted_var (xs ws : List ℝ) : ℝ :=
  (∑ i ∈ Finset.range xs.length,
    (xs.getD i 0 - spec_weighted_mean xs ws) ^ 2 * ws.getD i 0) / ws.sum

/-- The spec's formula for the normalization seed:
`Σ_i counts[i] * (edges[i+1] - edges[i])`. -/
noncomputable def spec_hist_integral (counts edges : List ℝ) : ℝ :=
  ∑ i ∈ Finset.range counts.length,
    counts.getD i 0 * (edges.getD (i + 1) 0 - edges.getD i 0)

lemma sum_zipWith_getD (f : ℝ → ℝ → ℝ) (xs ws : List ℝ)
    (h : xs.length = ws.length) :
    (List.zipWith f xs ws).sum
      = ∑ i ∈ Finset.range xs.length, f (xs.getD i 0) (ws.getD i 0) := by
  induction xs generalizing ws with
  | nil => simp
  | cons x t ih =>
    cases ws with
    | nil => simp at h
    | cons w tw =>
      have ht : t.length = tw.length := by simpa using h
      rw [List.zipWith_cons_cons, List.sum_cons, List.length_cons,
        Finset.sum_range_succ']
      simp only [List.getD_cons_succ, List.getD_cons_zero]
      rw [ih tw ht]
      ring

lemma npDiff_length (xs : List ℝ) : (npDiff xs).length = xs.length - 1 := by
  simp only [npDiff, List.length_zipWith, List.length_tail]
  omega

lemma npDiff_getD (xs : List ℝ) (i : ℕ) (h : i + 1 < xs.length) :
    (npDiff xs).getD i 0 = xs.getD (i + 1) 0 - xs.getD i 0 := by
  induction xs generalizing i with
  | nil => simp at h
  | cons x t ih =>
    cases t with
    | nil => simp at h
    | cons y t2 =>
      have hstep : npDiff (x :: y :: t2) = (y - x) :: npDiff (y :: t2) := by
        simp [npDiff]
      cases i with
      | zero => rw [hstep]; simp
      | succ j =>
        rw [hstep]
        simp only [List.getD_cons_succ]
        exact ih j (by simpa using h)

lemma npAverage_eq_spec (a w : List ℝ) (h : a.length = w.length)
    (hw : w.sum ≠ 0) :
    npAverage a w = some (spec_weighted_mean a w) := by
  simp only [npAverage, spec_weighted_mean]
  rw [if_pos h, if_neg hw, sum_zipWith_getD _ _ _ h]

lemma npAverage_sq_eq_spec (a w : List ℝ) (h : a.length = w.length)
    (hw : w.sum ≠ 0) :
    npAverage (a.map fun c => (c - spec_weighted_mean a w) ^ 2) w
      = some (spec_weighted_var a w) := by
  simp only [npAverage, spec_weighted_var]
  rw [if_pos (by simpa using h), if_neg hw, List.zipWith_map_left,
    sum_zipWith_getD _ _ _ h]

lemma broadcast_norm_eq_spec (data edges : List ℝ)
    (hed : edges.length = data.length + 1) :
    ∃ l, broadcastMul data (npDiff edges) = some l
      ∧ l.sum = spec_hist_integral data edges := by
  have hdl : data.length = (npDiff edges).length := by
    rw [npDiff_length, hed]
    omega
  refine ⟨_, by rw [broadcastMul, if_pos hdl], ?_⟩
  rw [sum_zipWith_getD _ _ _ hdl, spec_hist_integral]
  refine Finset.sum_congr rfl fun i hi => ?_
  rw [npDiff_getD edges i (by have hi2 := Finset.mem_range.mp hi; omega)]

/-- Claim C2: for every input and every parameter vector with `|alpha| = 0`,
`n ≤ 0` or `sigma ≤ 0` (in particular at `sigma = 0`), the Crystal Ball
evaluation returns the all-undefined (NaN) result — modelled as `none` — and,
being a total function, raises no exception. -/
theorem crystal_ball_invalid_params (x alpha n mean sigma N : ℝ)
    (h : |alpha| = 0 ∨ n ≤ 0 ∨ sigma ≤ 0) :
    crystal_ball x alpha n mean sigma N = none := by
  simp only [crystal_ball]
  rw [if_pos h]

theorem crystal_ball_invalid_params_witness :
    crystal_ball 0 1 1 0 0 1 = none :=
  crystal_ball_invalid_params 0 1 1 0 0 1 (by norm_num)

/-- Claim C1: for valid parameters (`|alpha| ≠ 0`, `n > 0`, `sigma > 0`),
with `z = (x-mean)/sigma`, `A = (n/|alpha|)^n * exp(-|alpha|^2/2)` and
`B = n/|alpha| - |alpha|`, the Crystal Ball evaluation is `N * exp(-z^2/2)`
for `z > -|alpha|`, is `N * (A * (B-z)^(-n))` for `z ≤ -|alpha|` with
`B - z > 0`, and is `N * 0` for `z ≤ -|alpha|` with `B - z ≤ 0`; over the
reals no NaN arises on these branches, so the source's NaN-to-zero
replacement is the identity here. -/
theorem crystal_ball_piecewise (x alpha n mean sigma N : ℝ)
    (ha : |alpha| ≠ 0) (hn : 0 < n) (hs : 0 < sigma) :
    ((x - mean) / sigma > -|alpha| →
      crystal_ball x alpha n mean sigma N
        = some (N * Real.exp (-((x - mean) / sigma) ^ 2 / 2))) ∧
    ((x - mean) / sigma ≤ -|alpha| →
      n / |alpha| - |alpha| - (x - mean) / sigma > 0 →
      crystal_ball x alpha n mean sigma N
        = some (N * ((n / |alpha|) ^ n * Real.exp (-|alpha| ^ 2 / 2)
            * (n / |alpha| - |alpha| - (x - mean) / sigma) ^ (-n)))) ∧
    ((x - mean) / sigma ≤ -|alpha| →
      n / |alpha| - |alpha| - (x - mean) / sigma ≤ 0 →
      crystal_ball x alpha n mean sigma N = some (N * 0)) := by
  have hguard : ¬(|alpha| = 0 ∨ n ≤ 0 ∨ sigma ≤ 0) := by
    push_neg
    exact ⟨ha, hn, hs⟩
  refine ⟨fun hz => ?_, fun hz ht => ?_, fun hz ht => ?_⟩
  · simp only [crystal_ball]
    rw [if_neg hguard, if_pos hz]
  · simp only [crystal_ball]
    rw [if_neg hguard, if_neg (not_lt.mpr hz), if_pos ht]
  · simp only [crystal_ball]
    rw [if_neg hguard, if_neg (not_lt.mpr hz), if_neg (not_lt.mpr ht)]

theorem crystal_ball_piecewise_witness :
    (((0 : ℝ) - 0) / 1 > -|(1 : ℝ)| →
      crystal_ball 0 1 1 0 1 1
        = some (1 * Real.exp (-(((0 : ℝ) - 0) / 1) ^ 2 / 2))) ∧
    (((0 : ℝ) - 0) / 1 ≤ -|(1 : ℝ)| →
      (1 : ℝ) / |(1 : ℝ)| - |(1 : ℝ)| - ((0 : ℝ) - 0) / 1 > 0 →
      crystal_ball 0 1 1 0 1 1
        = some (1 * (((1 : ℝ) / |(1 : ℝ)|) ^ (1 : ℝ)
            * Real.exp (-|(1 : ℝ)| ^ 2 / 2)
            * ((1 : ℝ) / |(1 : ℝ)| - |(1 : ℝ)| - ((0 : ℝ) - 0) / 1) ^ (-(1 : ℝ))))) ∧
    (((0 : ℝ) - 0) / 1 ≤ -|(1 : ℝ)| →
      (1 : ℝ) / |(1 : ℝ)| - |(1 : ℝ)| - ((0 : ℝ) - 0) / 1 ≤ 0 →
      crystal_ball 0 1 1 0 1 1 = some (1 * 0)) :=
  crystal_ball_piecewise 0 1 1 0 1 1 (by norm_num) (by norm_num) (by norm_num)

/-- Claim C9: for valid Crystal Ball parameters and `N ≥ 0`, the evaluation
produces a defined value lying in `[0, N]`: the Gaussian core is at most 1,
the power-law tail on its branch is at most `exp(-|alpha|^2/2) ≤ 1` because
`B - z ≥ n/|alpha|` there, and the zero branch is nonnegative. -/
theorem crystal_ball_bounded (x alpha n mean sigma N : ℝ)
    (ha : |alpha| ≠ 0) (hn : 0 < n) (hs : 0 < sigma) (hN : 0 ≤ N) :
    ∃ v, crystal_ball x alpha n mean sigma N = some v ∧ 0 ≤ v ∧ v ≤ N := by
  have ha0 : 0 < |alpha| := (abs_nonneg alpha).lt_of_ne (Ne.symm ha)
  have hguard : ¬(|alpha| = 0 ∨ n ≤ 0 ∨ sigma ≤ 0) := by
    push_neg
    exact ⟨ha, hn, hs⟩
  have hbase : 0 < n / |alpha| := div_pos hn ha0
  have hA : 0 ≤ (n / |alpha|) ^ n * Real.exp (-|alpha| ^ 2 / 2) :=
    mul_nonneg (Real.rpow_nonneg hbase.le n) (Real.exp_nonneg _)
  have hAmul : (n / |alpha|) ^ n * Real.exp (-|alpha| ^ 2 / 2) * (n / |alpha|) ^ (-n)
      = Real.exp (-|alpha| ^ 2 / 2) := by
    rw [mul_comm ((n / |alpha|) ^ n) (Real.exp (-|alpha| ^ 2 / 2)), mul_assoc,
      ← Real.rpow_add hbase, add_neg_cancel, Real.rpow_zero, mul_one]
  simp only [crystal_ball]
  rw [if_neg hguard]
  refine ⟨_, rfl, ?_, ?_⟩
  · apply mul_nonneg hN
    split_ifs with h1 h2
    · exact Real.exp_nonneg _
    · exact mul_nonneg hA (Real.rpow_nonneg h2.le _)
    · exact le_refl 0
  · apply mul_le_of_le_one_right hN
    split_ifs with h1 h2
    · exact Real.exp_le_one_iff.mpr (by nlinarith [sq_nonneg ((x - mean) / sigma)])
    · have hz : (x - mean) / sigma ≤ -|alpha| := not_lt.mp h1
      have htge : n / |alpha|
          ≤ n / |alpha| - |alpha| - (x - mean) / sigma := by linarith
      have h3 := Real.rpow_le_rpow_of_nonpos hbase htge (neg_nonpos.mpr hn.le)
      calc (n / |alpha|) ^ n * Real.exp (-|alpha| ^ 2 / 2)
            * (n / |alpha| - |alpha| - (x - mean) / sigma) ^ (-n)
          ≤ (n / |alpha|) ^ n * Real.exp (-|alpha| ^ 2 / 2)
            * (n / |alpha|) ^ (-n) := mul_le_mul_of_nonneg_left h3 hA
        _ = Real.exp (-|alpha| ^ 2 / 2) := hAmul
        _ ≤ 1 := Real.exp_le_one_iff.mpr (by nlinarith [sq_nonneg |alpha|])
    · exact zero_le_one

theorem crystal_ball_bounded_witness :
    ∃ v, crystal_ball 2 1 1 0 1 1 = some v ∧ 0 ≤ v ∧ v ≤ 1 :=
  crystal_ball_bounded 2 1 1 0 1 1 (by norm_num) (by norm_num) (by norm_num)
    (by norm_num)

/-- Claim C6: for every input and parameter vector,
`crystal_ball_mxb x alpha n mean sigma N m b` is exactly
`crystal_ball x alpha n mean sigma N` with `m*x + b` added pointwise (an
all-NaN Crystal Ball stays all-NaN), and at `m = 0`, `b = 0` it equals the
Crystal Ball evaluation exactly. -/
theorem crystal_ball_mxb_decomposition (x alpha n mean sigma N m b : ℝ) :
    crystal_ball_mxb x alpha n mean sigma N m b
      = Option.map (fun v => v + m * x + b) (crystal_ball x alpha n mean sigma N) ∧
    crystal_ball_mxb x alpha n mean sigma N 0 0
      = crystal_ball x alpha n mean sigma N := by
  constructor
  · cases h : crystal_ball x alpha n mean sigma N <;>
      simp [crystal_ball_mxb, h]
  · cases h : crystal_ball x alpha n mean sigma N <;>
      simp [crystal_ball_mxb, h]

/-- Claim C7: for every `mean`, `N` and `sigma > 0`, the Gaussian model
function equals `N * exp(-0.5*((x-mean)/sigma)^2) / (sigma*sqrt(2*pi))` at
every `x`, and its value at `x = mean` is `N / (sigma*sqrt(2*pi))`. -/
theorem gaussian_formula_and_peak (mean sigma N : ℝ) (hs : 0 < sigma) :
    (∀ x, gaussian x mean sigma N
        = N * Real.exp (-0.5 * ((x - mean) / sigma) ^ 2)
            / (sigma * Real.sqrt (2 * Real.pi))) ∧
    gaussian mean mean sigma N = N / (sigma * Real.sqrt (2 * Real.pi)) := by
  constructor
  · intro x
    simp only [gaussian]
    ring
  · simp [gaussian]

theorem gaussian_formula_and_peak_witness :
    (∀ x, gaussian x 0 1 1
        = 1 * Real.exp (-0.5 * ((x - 0) / 1) ^ 2)
            / (1 * Real.sqrt (2 * Real.pi))) ∧
    gaussian 0 0 1 1 = 1 / (1 * Real.sqrt (2 * Real.pi)) :=
  gaussian_formula_and_peak 0 1 1 (by norm_num)

/-- Claim C5: for a well-shaped invocation with nonnegative counts of
positive total, every branch of `fit_with_function` seeds the solver with
mean = counts-weighted average of the centers, sigma = square root of the
counts-weighted variance about that mean, and normalization
= `Σ_i counts[i] * (edges[i+1] - edges[i])`; the Crystal Ball branches add
`alpha = 1.5`, `n = 5`, and the linear-background branch adds `m = 0` and
`b = mean(counts)`. -/
theorem fit_initial_guess (bin_centers data bin_edges : List ℝ)
    (hlen : bin_centers.length = data.length)
    (hed : bin_edges.length = bin_centers.length + 1)
    (hnn : ∀ d ∈ data, 0 ≤ d) (hsum : 0 < data.sum) :
    cb_prepare bin_centers data bin_edges
      = some [1.5, 5, spec_weighted_mean bin_centers data,
          Real.sqrt (spec_weighted_var bin_centers data),
          spec_hist_integral data bin_edges] ∧
    mxb_prepare bin_centers data bin_edges
      = some [1.5, 5, spec_weighted_mean bin_centers data,
          Real.sqrt (spec_weighted_var bin_centers data),
          spec_hist_integral data bin_edges, 0, data.sum / data.length] ∧
    gaussian_prepare bin_centers data bin_edges
      = some [spec_weighted_mean bin_centers data,
          Real.sqrt (spec_weighted_var bin_centers data),
          spec_hist_integral data bin_edges] := by
  have hsn : data.sum ≠ 0 := ne_of_gt hsum
  have h1 := npAverage_eq_spec bin_centers data hlen hsn
  have h2 := npAverage_sq_eq_spec bin_centers data hlen hsn
  obtain ⟨l, h3, h3s⟩ :=
    broadcast_norm_eq_spec data bin_edges (by rw [hed, hlen])
  refine ⟨?_, ?_, ?_⟩ <;>
    simp [cb_prepare, mxb_prepare, gaussian_prepare, h1, h2, h3, h3s]

theorem fit_initial_guess_witness :
    cb_prepare [0, 2] [1, 1] [0, 2, 4]
      = some [1.5, 5, spec_weighted_mean [0, 2] [1, 1],
          Real.sqrt (spec_weighted_var [0, 2] [1, 1]),
          spec_hist_integral [1, 1] [0, 2, 4]] ∧
    mxb_prepare [0, 2] [1, 1] [0, 2, 4]
      = some [1.5, 5, spec_weighted_mean [0, 2] [1, 1],
          Real.sqrt (spec_weighted_var [0, 2] [1, 1]),
          spec_hist_integral [1, 1] [0, 2, 4], 0,
          ([1, 1] : List ℝ).sum / (([1, 1] : List ℝ).length : ℝ)] ∧
    gaussian_prepare [0, 2] [1, 1] [0, 2, 4]
      = some [spec_weighted_mean [0, 2] [1, 1],
          Real.sqrt (spec_weighted_var [0, 2] [1, 1]),
          spec_hist_integral [1, 1] [0, 2, 4]] :=
  fit_initial_guess [0, 2] [1, 1] [0, 2, 4] rfl rfl
    (by
      intro d hd
      simp only [List.mem_cons, List.not_mem_nil, or_false] at hd
      rcases hd with rfl | rfl <;> norm_num)
    (by norm_num [List.sum_cons, List.sum_nil])

lemma broadcastMul_incompatible (a b : List ℝ) (h1 : a.length ≠ b.length)
    (h2 : b.length ≠ 1) (h3 : a.length ≠ 1) :
    broadcastMul a b = none := by
  simp only [broadcastMul]
  rw [if_neg h1, if_neg h2, if_neg h3]

/-- Claim C8: when the solver raises (non-convergence) on every initial
guess it could be handed, any of the three fit branches lets the failure
escape to the caller — `fit_with_function` never completes with fitted
parameters. -/
theorem fit_solver_failure_propagates (solver : Solver)
    (bin_centers data bin_edges : List ℝ) (fit_type : Option String)
    (hty : fit_type = some "crystal_ball" ∨ fit_type = some "crystal_ball_mxb"
      ∨ fit_type = some "gaussian")
    (hfail : ∀ p0, solver bin_centers data p0 = .error FitError.solverFailure) :
    fitFailed (fit_with_function solver bin_centers data bin_edges fit_type)
      = true := by
  rcases hty with h | h | h
  · subst h
    simp only [fit_with_function]
    rw [if_pos trivial]
    cases hp : cb_prepare bin_centers data bin_edges with
    | none => rfl
    | some g => simp [hfail g, fitFailed]
  · subst h
    simp only [fit_with_function]
    rw [if_neg (by decide), if_pos trivial]
    cases hp : mxb_prepare bin_centers data bin_edges with
    | none => rfl
    | some g => simp [hfail g, fitFailed]
  · subst h
    simp only [fit_with_function]
    rw [if_neg (by decide), if_neg (by decide), if_pos trivial]
    cases hp : gaussian_prepare bin_centers data bin_edges with
    | none => rfl
    | some g => simp [hfail g, fitFailed]

theorem fit_solver_failure_propagates_witness :
    fitFailed (fit_with_function (fun _ _ _ => .error FitError.solverFailure)
        [0, 2] [1, 1] [0, 2, 4] (some "gaussian")) = true :=
  fit_solver_failure_propagates _ [0, 2] [1, 1] [0, 2, 4] (some "gaussian")
    (Or.inr (Or.inr rfl)) (fun _ => rfl)

/-- Claim C4 counterexample: bin edges `[0, 9]` have length 2, not
`len(binCenters) + 1 = 3`, yet no input-validation failure occurs before the
solver: `np.diff` of the two edges has length 1 and broadcasts against the
counts, so the initial guess is built and the solver is invoked (witnessed
here by a solver whose error surfaces as the overall result). -/
theorem fit_malformed_edges_reaches_solver_cex :
    fit_with_function (fun _ _ _ => .error FitError.solverFailure)
        [0, 2] [1, 1] [0, 9] (some "crystal_ball")
      = .error FitError.solverFailure ∧
    ([0, 9] : List ℝ).length ≠ ([0, 2] : List ℝ).length + 1 := by
  constructor
  · simp only [fit_with_function]
    rw [if_pos trivial]
    norm_num [cb_prepare, npAverage, broadcastMul, npDiff]
  · norm_num

/-- Claim C4 as amended: the source performs no explicit input validation;
a malformed `bin_edges` aborts before the solver only when the elementwise
product `data * np.diff(bin_edges)` is not broadcastable, i.e. when the diff
length differs from the data length and neither is 1.  In that case the
numpy error is raised during initial-guess computation, before the solver is
invoked, in every fit branch. -/
theorem fit_incompatible_shapes_fail_before_solver (solver : Solver)
    (bin_centers data bin_edges : List ℝ) (fit_type : Option String)
    (hty : fit_type = some "crystal_ball" ∨ fit_type = some "crystal_ball_mxb"
      ∨ fit_type = some "gaussian")
    (hd1 : (npDiff bin_edges).length ≠ data.length)
    (hd2 : (npDiff bin_edges).length ≠ 1)
    (hd3 : data.length ≠ 1) :
    fit_with_function solver bin_centers data bin_edges fit_type
      = .error FitError.numpyError := by
  have hb : broadcastMul data (npDiff bin_edges) = none :=
    broadcastMul_incompatible _ _ (fun hh => hd1 hh.symm) hd2 hd3
  rcases hty with h | h | h
  · subst h
    simp only [fit_with_function]
    rw [if_pos trivial]
    cases hm : npAverage bin_centers data with
    | none => simp [cb_prepare, hm]
    | some m =>
      cases hv : npAverage (bin_centers.map fun c => (c - m) ^ 2) data with
      | none => simp [cb_prepare, hm, hv]
      | some v => simp [cb_prepare, hm, hv, hb]
  · subst h
    simp only [fit_with_function]
    rw [if_neg (by decide), if_pos trivial]
    cases hm : npAverage bin_centers data with
    | none => simp [mxb_prepare, hm]
    | some m =>
      cases hv : npAverage (bin_centers.map fun c => (c - m) ^ 2) data with
      | none => simp [mxb_prepare, hm, hv]
      | some v => simp [mxb_prepare, hm, hv, hb]
  · subst h
    simp only [fit_with_function]
    rw [if_neg (by decide), if_neg (by decide), if_pos trivial]
    cases hm : npAverage bin_centers data with
    | none => simp [gaussian_prepare, hm]
    | some m =>
      cases hv : npAverage (bin_centers.map fun c => (c - m) ^ 2) data with
      | none => simp [gaussian_prepare, hm, hv]
      | some v => simp [gaussian_prepare, hm, hv, hb]

theorem fit_incompatible_shapes_fail_before_solver_witness :
    fit_with_function (fun _ _ _ => .error FitError.solverFailure)
        [0, 2] [1, 1] [0, 1, 2, 3] (some "gaussian")
      = .error FitError.numpyError :=
  fit_incompatible_shapes_fail_before_solver _ [0, 2] [1, 1] [0, 1, 2, 3]
    (some "gaussian") (Or.inr (Or.inr rfl))
    (by simp [npDiff_length]) (by simp [npDiff_length]) (by simp)

/-- The fitted-parameter array returned by the mock solver below:
parameter `i` is the real number `i`. -/
def mock_popt : Nat → ℝ := fun i => (i : ℝ)

/-- The covariance matrix returned by the mock solver below: all entries 1. -/
def mock_pcov : Nat → Nat → ℝ := fun _ _ => 1

/-- A mock `curve_fit` that converges immediately, used to exercise the
label construction of a successful fit. -/
def mock_solver : Solver := fun _ _ _ => .ok ⟨mock_popt, mock_pcov⟩

/-- The fit outcome produced by `mock_solver` on the `crystal_ball` branch. -/
noncomputable def mock_result : FitResult :=
  ⟨mock_popt, mock_pcov, cb_label mock_popt mock_pcov⟩

lemma mock_fit_eval :
    fit_with_function mock_solver [0, 2] [1, 1] [0, 2, 4]
        (some "crystal_ball") = .ok (some mock_result) := by
  obtain ⟨l, h3, _⟩ := broadcast_norm_eq_spec [1, 1] [0, 2, 4] rfl
  have h1 := npAverage_eq_spec ([0, 2] : List ℝ) [1, 1] rfl (by norm_num)
  have h2 := npAverage_sq_eq_spec ([0, 2] : List ℝ) [1, 1] rfl (by norm_num)
  simp only [fit_with_function]
  rw [if_pos trivial]
  simp at h2
  simp [cb_prepare, h1, h2, h3, mock_solver, mock_result]

/-- Claim C3 counterexample: this successful Crystal Ball fit produces a
label that embeds no entry for the fitted normalization `popt[4]` with its
error, so the label does not embed every parameter of the fitted vector. -/
theorem fit_label_omits_norm_cex :
    fit_with_function mock_solver [0, 2] [1, 1] [0, 2, 4]
        (some "crystal_ball") = .ok (some mock_result) ∧
    ∀ en ∈ mock_result.label,
      ¬(en.value = mock_result.popt 4
        ∧ en.err = Real.sqrt (mock_result.pcov 4 4)) := by
  refine ⟨mock_fit_eval, ?_⟩
  intro en hen
  simp only [mock_result, cb_label, List.mem_cons, List.not_mem_nil,
    or_false] at hen
  rcases hen with rfl | rfl | rfl | rfl <;>
    · rintro ⟨h, -⟩
      norm_num [mock_result, mock_popt] at h

/-- Claim C3 as amended: for every successful fit invocation, the label
embeds each parameter of the fitted vector except the normalization `N`
(indices 0-3 for Crystal Ball, additionally 5 and 6 for the linear
background, indices 0-1 for Gaussian), each together with the square root of
the corresponding covariance diagonal entry; in the source every embedded
quantity is rendered with the two-decimal `:.2f` format. -/
theorem fit_label_embeds_params_except_norm (solver : Solver)
    (bin_centers data bin_edges : List ℝ) (fit_type : Option String)
    (r : FitResult)
    (hr : fit_with_function solver bin_centers data bin_edges fit_type
      = .ok (some r)) :
    (fit_type = some "crystal_ball" →
      ∀ i ∈ [0, 1, 2, 3],
        ∃ en ∈ r.label, en.value = r.popt i
          ∧ en.err = Real.sqrt (r.pcov i i)) ∧
    (fit_type = some "crystal_ball_mxb" →
      ∀ i ∈ [0, 1, 2, 3, 5, 6],
        ∃ en ∈ r.label, en.value = r.popt i
          ∧ en.err = Real.sqrt (r.pcov i i)) ∧
    (fit_type = some "gaussian" →
      ∀ i ∈ [0, 1],
        ∃ en ∈ r.label, en.value = r.popt i
          ∧ en.err = Real.sqrt (r.pcov i i)) := by
  refine ⟨fun he => ?_, fun he => ?_, fun he => ?_⟩
  · subst he
    simp only [fit_with_function] at hr
    rw [if_pos trivial] at hr
    cases hp : cb_prepare bin_centers data bin_edges with
    | none => rw [hp] at hr; simp at hr
    | some g =>
      rw [hp] at hr
      simp only [] at hr
      cases hsv : solver bin_centers data g with
      | error e => rw [hsv] at hr; simp at hr
      | ok out =>
        rw [hsv] at hr
        simp only [Except.ok.injEq, Option.some.injEq] at hr
        subst hr
        intro i hi
        simp only [List.mem_cons, List.not_mem_nil, or_false] at hi
        rcases hi with rfl | rfl | rfl | rfl
        · exact ⟨⟨"alpha", out.popt 0, Real.sqrt (out.pcov 0 0)⟩,
            by simp [cb_label], rfl, rfl⟩
        · exact ⟨⟨"n", out.popt 1, Real.sqrt (out.pcov 1 1)⟩,
            by simp [cb_label], rfl, rfl⟩
        · exact ⟨⟨"mu", out.popt 2, Real.sqrt (out.pcov 2 2)⟩,
            by simp [cb_label], rfl, rfl⟩
        · exact ⟨⟨"sigma", out.popt 3, Real.sqrt (out.pcov 3 3)⟩,
            by simp [cb_label], rfl, rfl⟩
  · subst he
    simp only [fit_with_function] at hr
    rw [if_neg (by decide), if_pos trivial] at hr
    cases hp : mxb_prepare bin_centers data bin_edges with
    | none => rw [hp] at hr; simp at hr
    | some g =>
      rw [hp] at hr
      simp only [] at hr
      cases hsv : solver bin_centers data g with
      | error e => rw [hsv] at hr; simp at hr
      | ok out =>
        rw [hsv] at hr
        simp only [Except.ok.injEq, Option.some.injEq] at hr
        subst hr
        intro i hi
        simp only [List.mem_cons, List.not_mem_nil, or_false] at hi
        rcases hi with rfl | rfl | rfl | rfl | rfl | rfl
        · exact ⟨⟨"alpha", out.popt 0, Real.sqrt (out.pcov 0 0)⟩,
            by simp [mxb_label], rfl, rfl⟩
        · exact ⟨⟨"n", out.popt 1, Real.sqrt (out.pcov 1 1)⟩,
            by simp [mxb_label], rfl, rfl⟩
        · exact ⟨⟨"mu", out.popt 2, Real.sqrt (out.pcov 2 2)⟩,
            by simp [mxb_label], rfl, rfl⟩
        · exact ⟨⟨"sigma", out.popt 3, Real.sqrt (out.pcov 3 3)⟩,
            by simp [mxb_label], rfl, rfl⟩
        · exact ⟨⟨"m", out.popt 5, Real.sqrt (out.pcov 5 5)⟩,
            by simp [mxb_label], rfl, rfl⟩
        · exact ⟨⟨"b", out.popt 6, Real.sqrt (out.pcov 6 6)⟩,
            by simp [mxb_label], rfl, rfl⟩
  · subst he
    simp only [fit_with_function] at hr
    rw [if_neg (by decide), if_neg (by decide), if_pos trivial] at hr
    cases hp : gaussian_prepare bin_centers data bin_edges with
    | none => rw [hp] at hr; simp at hr
    | some g =>
      rw [hp] at hr
      simp only [] at hr
      cases hsv : solver bin_centers data g with
      | error e => rw [hsv] at hr; simp at hr
      | ok out =>
        rw [hsv] at hr
        simp only [Except.ok.injEq, Option.some.injEq] at hr
        subst hr
        intro i hi
        simp only [List.mem_cons, List.not_mem_nil, or_false] at hi
        rcases hi with rfl | rfl
        · exact ⟨⟨"mu", out.popt 0, Real.sqrt (out.pcov 0 0)⟩,
            by simp [gaussian_label], rfl, rfl⟩
        · exact ⟨⟨"sigma", out.popt 1, Real.sqrt (out.pcov 1 1)⟩,
            by simp [gaussian_label], rfl, rfl⟩

theorem fit_label_embeds_params_except_norm_witness :
    ((some "crystal_ball" : Option String) = some "crystal_ball" →
      ∀ i ∈ [0, 1, 2, 3],
        ∃ en ∈ mock_result.label, en.value = mock_result.popt i
          ∧ en.err = Real.sqrt (mock_result.pcov i i)) ∧
    ((some "crystal_ball" : Option String) = some "crystal_ball_mxb" →
      ∀ i ∈ [0, 1, 2, 3, 5, 6],
        ∃ en ∈ mock_result.label, en.value = mock_result.popt i
          ∧ en.err = Real.sqrt (mock_result.pcov i i)) ∧
    ((some "crystal_ball" : Option String) = some "gaussian" →
      ∀ i ∈ [0, 1],
        ∃ en ∈ mock_result.label, en.value = mock_result.popt i
          ∧ en.err = Real.sqrt (mock_result.pcov i i)) :=
  fit_label_embeds_params_except_norm mock_solver [0, 2] [1, 1] [0, 2, 4]
    (some "crystal_ball") mock_result mock_fit_eval

/-- Claim C10: for every `fit_type` other than the exact strings
`"crystal_ball"`, `"crystal_ball_mxb"` and `"gaussian"` (including `None` and
differently capitalized variants such as `"Gaussian"`), `fit_with_function`
falls through every branch and returns `None` — no guess computation, no
solver call, no exception and no drawing, captured as `.ok none`. -/
theorem fit_unknown_type_noop (solver : Solver)
    (bin_centers data bin_edges : List ℝ) (fit_type : Option String)
    (h1 : fit_type ≠ some "crystal_ball")
    (h2 : fit_type ≠ some "crystal_ball_mxb")
    (h3 : fit_type ≠ some "gaussian") :
    fit_with_function solver bin_centers data bin_edges fit_type = .ok none := by
  simp only [fit_with_function]
  rw [if_neg h1, if_neg h2, if_neg h3]

theorem fit_unknown_type_noop_witness :
    fit_with_function (fun _ _ _ => .error FitError.solverFailure) [] [] []
        (some "Gaussian") = .ok none :=
  fit_unknown_type_noop _ [] [] [] (some "Gaussian")
    (by decide) (by decide) (by decide)

end Spineplot
